import Mathlib

/-!
# TASA synchronization engine — verification development

Shallow embedding of the TASA synchronization engine (src/prog.py and
src/db_act.py) and proofs about its push-candidate selection, push status
update, pull insertion, environment copy, schema creation, and resource
handling.

Modelling conventions:
* SQLite timestamps (`datetime('now')` strings of the form
  `YYYY-MM-DD HH:MM:SS`) are modelled as `Nat`; lexicographic comparison on
  such strings agrees with the numeric order, and the parameter binding of a
  Python `datetime` object reproduces the same string format.
* Nullable SQL columns are `Option` types; SQL three-valued comparisons with
  `NULL` are modelled explicitly (`sql_gt`, `sql_eq_str`): a comparison with
  `NULL` on either side never holds.
* Each table is a list of rows in insertion order; `INSERT` appends,
  `UPDATE`/`DELETE` map/filter the list.
* The store itself never fails in the model (statements on an open
  connection succeed unless a constraint is violated, which is modelled
  explicitly for the primary-key conflict of the copy operator).
* Exceptions that escape a function are modelled with `Except`; a caught
  exception turns into a callback message, mirroring the source.
-/

/-- SQLite `datetime('now')` values, modelled as naturals (see header). -/
abbrev Timestamp := Nat

/-- One row of an environment main table `{project}_{env}`
(db_act.create_main_env_table): `article_id` is the `INTEGER PRIMARY KEY`,
every other column is nullable. -/
structure EnvRow where
  exp_article_id : Option Int
  article_id : Int
  locale : Option String
  title : Option String
  tags : Option String
  path : Option String
  content : Option String
  status : Option String
  modified_timestamp : Option Timestamp
deriving Repr, DecidableEq

/-- One row of the `last_run` table (db_act.create_base_tables). -/
structure RunLogRow where
  id : Int
  last_sync_timestamp : Option Timestamp
  status : Option String
deriving Repr, DecidableEq

/-- SQL `a > b` on nullable timestamps: `NULL` on either side yields no match. -/
def sql_gt (a b : Option Timestamp) : Bool :=
  match a, b with
  | some x, some y => decide (y < x)
  | _, _ => false

/-- SQL `a = b` on nullable text: `NULL` on either side yields no match. -/
def sql_eq_str (a b : Option String) : Bool :=
  match a, b with
  | some x, some y => decide (x = y)
  | _, _ => false

/-- prog.get_last_run_info: `SELECT * FROM last_run ORDER BY
last_sync_timestamp DESC LIMIT 1`, returning the parsed timestamp of the
top row.  SQLite sorts `NULL` last under `DESC`, so the result is the
greatest non-null timestamp, and `none` when the table is empty or holds
only `NULL` timestamps (the non-string branch of the source). -/
def get_last_run_info (runlog : List RunLogRow) : Option Timestamp :=
  (runlog.filterMap (fun r => r.last_sync_timestamp)).max?

/-- prog.fetch_all_records: rows of the environment table satisfying
`modified_timestamp IS NULL OR modified_timestamp > ?`, the parameter being
the timestamp from `get_last_run_info` (bound as SQL `NULL` when absent). -/
def fetch_all_records (runlog : List RunLogRow) (table : List EnvRow) :
    List EnvRow :=
  let last_sync_datetime := get_last_run_info runlog
  table.filter
    (fun r => r.modified_timestamp.isNone || sql_gt r.modified_timestamp last_sync_datetime)

/-- Python truthiness of a nullable string (`if not parameters[1]`):
`None` and the empty string are falsy. -/
def pythonTruthy : Option String → Bool
  | none => false
  | some s => decide (s ≠ "")

/-- Python truthiness of a nullable integer (`if not exp_article_id`):
`None` and `0` are falsy. -/
def intTruthy : Option Int → Bool
  | none => false
  | some n => decide (n ≠ 0)

/-- prog.update_record_status: raises `ValueError` when `path` or `locale`
is falsy, otherwise `UPDATE {env} SET exp_article_id = ?, status =
'succeeded' WHERE path = ? AND locale = ?`.  The `AFTER UPDATE` trigger of
db_act.create_update_trigger then fires once per updated row and runs
`UPDATE {env} SET modified_timestamp = datetime('now') WHERE article_id =
NEW.article_id` (the trigger's own update does not re-fire: SQLite's
`recursive_triggers` is off by default). -/
def update_record_status (now : Timestamp) (page_id : Int)
    (path locale : Option String) (table : List EnvRow) :
    Except String (List EnvRow) :=
  if !pythonTruthy path || !pythonTruthy locale then
    Except.error "Invalid input: Missing required variables: 'path' or 'locale'"
  else
    let hit := fun (r : EnvRow) => sql_eq_str r.path path && sql_eq_str r.locale locale
    let updated := table.map (fun r =>
      if hit r then
        { r with exp_article_id := some page_id, status := some "succeeded" }
      else r)
    let updated_ids : List Int := (table.filter hit).map (fun r => r.article_id)
    Except.ok (updated.map (fun r =>
      if r.article_id ∈ updated_ids then
        { r with modified_timestamp := some now }
      else r))

/-- One tuple returned by the push scan, in the `SELECT` column order of
prog.fetch_all_records: `article_id, exp_article_id, locale, title, tags,
path, content`. -/
structure PushRow where
  article_id : Int
  exp_article_id : Option Int
  locale : Option String
  title : Option String
  tags : Option String
  path : Option String
  content : Option String
deriving Repr, DecidableEq

/-- Projection of an environment row to the push scan's column tuple. -/
def toPushRow (r : EnvRow) : PushRow :=
  ⟨r.article_id, r.exp_article_id, r.locale, r.title, r.tags, r.path, r.content⟩

/-- Outcome of the create/update GraphQL mutation issued by
prog.process_record, as seen by the caller:
* `raised`: `execute_graphql_mutation` raised (transport failure or
  non-2xx status turned into `RuntimeError`);
* `respErrors`: the response body carries an `errors` array (its first
  entry's optional `message` is reported);
* `okCreate`/`okUpdate`: `response_data["data"]["pages"]` holds a
  `create`/`update` object with the remote page id and a response message;
* `okNeither`: a `data.pages` object with neither key, so the source reads
  an unbound `page_id` and raises `NameError`. -/
inductive MutationOutcome where
  | raised (msg : String)
  | respErrors (first_message : Option String)
  | okCreate (page_id : Int) (message : String)
  | okUpdate (page_id : Int) (message : String)
  | okNeither
deriving Repr, DecidableEq

/-- prog.process_record for one scanned row, given the remote's answer to
the single create-or-update mutation the source issues for it (`create`
when `exp_article_id` is falsy, `update` otherwise; the branch only decides
which request is sent).  Every exception is caught by the function's
`except Exception` and becomes one callback message, leaving the table
unchanged.  `prepare_record_variables` calls `tags.split(";")`, so a `NULL`
`tags` column raises `AttributeError` before any request.  The follow-up
related-data mutation (`fetch_related_data` + `handle_follow_up_mutation`)
only reads the store and posts to the network, never writing locally, and
is omitted from the model. -/
def process_record (now : Timestamp) (table : List EnvRow) (row : PushRow)
    (outcome : MutationOutcome) : List EnvRow × List String :=
  match row.tags with
  | none =>
    (table, ["Error while processing record: 'NoneType' object has no attribute 'split'"])
  | some _ =>
    match outcome with
    | .raised msg => (table, ["Error while processing record: " ++ msg])
    | .respErrors first_message =>
      let record_id :=
        if !intTruthy row.exp_article_id then
          "article id: " ++ toString row.article_id
        else
          "exp_article_id id: " ++ toString (row.exp_article_id.getD 0)
      (table, ["Failed to process record " ++ record_id ++ ": " ++
        (first_message.getD "None")])
    | .okCreate page_id message | .okUpdate page_id message =>
      match update_record_status now page_id row.path row.locale table with
      | .ok updated =>
        (updated, ["Record " ++ toString page_id ++ ": " ++ message])
      | .error err =>
        (table, ["Record " ++ toString page_id ++ ": " ++ message,
          "Error while processing record: " ++ err])
    | .okNeither =>
      (table, ["Error while processing record: name 'page_id' is not defined"])

/-- One institution from the pull response
(`data.arvaInstitution.getArvaInstitutionsForPage`); `isResponsible` is
coerced with `bool(...)` at insertion. -/
structure InstitutionData where
  id : Int
  name : Option String
  url : Option String
  isResponsible : Bool
deriving Repr, DecidableEq

/-- One legal act from the pull response
(`data.arvaLegalAct.getLegalActsForPage`).  The `globalId` column is
declared `REAL`; the engine only stores and reloads it, so the value is
carried opaquely as an integer in the model. -/
structure LegalActData where
  id : Int
  title : Option String
  url : Option String
  legalActType : Option String
  globalId : Option Int
  groupId : Option Int
  versionStartDate : Option String
deriving Repr, DecidableEq

/-- One page contact from the pull response
(`data.arvaPageContact.getArvaPageContactForPage`). -/
structure PageContactData where
  id : Int
  contactId : Option Int
  role : Option String
  firstName : Option String
  lastName : Option String
  company : Option String
  email : Option String
  countryCode : Option String
  nationalNumber : Option String
deriving Repr, DecidableEq

/-- One related page from the pull response
(`data.arvaRelatedPages.getRelatedPagesForPage`). -/
structure RelatedPageData where
  id : Int
  title : Option String
  locale : Option String
deriving Repr, DecidableEq

/-- One service from the pull response
(`data.arvaService.getArvaServicesForPage`). -/
structure ServiceData where
  id : Int
  name : Option String
  url : Option String
deriving Repr, DecidableEq

/-- The page scalar fields of the pull response (`data.pages.single`);
`tags` is the list of the `title` values of the tag objects, an entry being
`none` when the title is not a string (the `isinstance` filter of
`_insert_page_data` drops those). -/
structure PageData where
  id : Int
  locale : Option String
  title : Option String
  tags : List (Option String)
  path : Option String
  content : Option String
deriving Repr, DecidableEq

/-- A successful pull response body for one article id. -/
structure ArvaResponse where
  page : PageData
  institutions : List InstitutionData
  legalActs : List LegalActData
  contacts : List PageContactData
  relatedPages : List RelatedPageData
  services : List ServiceData
deriving Repr, DecidableEq

/-- Row of `{env}_arva_institution` (db_act.create_related_tables). -/
structure InstitutionRow where
  id : Int
  pageId : Int
  name : Option String
  url : Option String
  isResponsible : Bool
deriving Repr, DecidableEq

/-- Row of `{env}_arva_legal_act`. -/
structure LegalActRow where
  id : Int
  pageId : Int
  title : Option String
  url : Option String
  legalActType : Option String
  globalId : Option Int
  groupId : Option Int
  versionStartDate : Option String
deriving Repr, DecidableEq

/-- Row of `{env}_arva_page_contact`; note the column order `id, contactId,
pageId, ...` — the only related table whose second column is not `pageId`. -/
structure PageContactRow where
  id : Int
  contactId : Option Int
  pageId : Int
  role : Option String
  firstName : Option String
  lastName : Option String
  company : Option String
  email : Option String
  countryCode : Option String
  nationalNumber : Option String
deriving Repr, DecidableEq

/-- Row of `{env}_arva_related_pages`. -/
structure RelatedPageRow where
  id : Int
  pageId : Int
  title : Option String
  locale : Option String
deriving Repr, DecidableEq

/-- Row of `{env}_arva_service`. -/
structure ServiceRow where
  id : Int
  pageId : Int
  name : Option String
  url : Option String
deriving Repr, DecidableEq

/-- The six tables of one environment: the main table `{project}_{env}`
and its five related tables. -/
structure EnvTables where
  main : List EnvRow
  institutions : List InstitutionRow
  legal_acts : List LegalActRow
  page_contacts : List PageContactRow
  related_pages : List RelatedPageRow
  services : List ServiceRow
deriving Repr, DecidableEq

/-- The tag join `";".join(tag["title"] for tag in page_data["tags"] if
isinstance(tag["title"], str))`. -/
def joinTags (tags : List (Option String)) : String :=
  String.intercalate ";" (tags.filterMap (fun t => t))

/-- prog._insert_page_data: upsert of the page scalars keyed by
`article_id`, returning the page id.  A fresh insert leaves
`exp_article_id`, `status` and `modified_timestamp` `NULL`; on a
primary-key conflict the `DO UPDATE` overwrites the synchronizable columns
and, being an `UPDATE`, fires the table's `AFTER UPDATE` trigger, which
stamps `modified_timestamp`. -/
def _insert_page_data (now : Timestamp) (main : List EnvRow) (p : PageData) :
    List EnvRow × Int :=
  let upserted :=
    if main.any (fun r => r.article_id == p.id) then
      main.map (fun r =>
        if r.article_id = p.id then
          { r with locale := p.locale, title := p.title,
                   tags := some (joinTags p.tags), path := p.path,
                   content := p.content, modified_timestamp := some now }
        else r)
    else
      main ++ [⟨none, p.id, p.locale, p.title, some (joinTags p.tags),
               p.path, p.content, none, none⟩]
  (upserted, p.id)

/-- prog._delete_records: `DELETE FROM {related} WHERE pageId = ?` on all
five related tables (the two `print` calls go to stdout, not the
callback). -/
def _delete_records (st : EnvTables) (article_id : Int) : EnvTables :=
  { st with
    institutions := st.institutions.filter (fun r => r.pageId ≠ article_id),
    legal_acts := st.legal_acts.filter (fun r => r.pageId ≠ article_id),
    page_contacts := st.page_contacts.filter (fun r => r.pageId ≠ article_id),
    related_pages := st.related_pages.filter (fun r => r.pageId ≠ article_id),
    services := st.services.filter (fun r => r.pageId ≠ article_id) }

/-- prog._insert_arva_institution. -/
def _insert_arva_institution (st : EnvTables) (page_id : Int)
    (resp : ArvaResponse) : EnvTables :=
  { st with institutions := st.institutions ++
      resp.institutions.map (fun i => ⟨i.id, page_id, i.name, i.url, i.isResponsible⟩) }

/-- prog._insert_arva_legal_act. -/
def _insert_arva_legal_act (st : EnvTables) (page_id : Int)
    (resp : ArvaResponse) : EnvTables :=
  { st with legal_acts := st.legal_acts ++
      resp.legalActs.map (fun l => ⟨l.id, page_id, l.title, l.url,
        l.legalActType, l.globalId, l.groupId, l.versionStartDate⟩) }

/-- prog._insert_arva_page_contact. -/
def _insert_arva_page_contact (st : EnvTables) (page_id : Int)
    (resp : ArvaResponse) : EnvTables :=
  { st with page_contacts := st.page_contacts ++
      resp.contacts.map (fun c => ⟨c.id, c.contactId, page_id, c.role,
        c.firstName, c.lastName, c.company, c.email, c.countryCode,
        c.nationalNumber⟩) }

/-- prog._insert_arva_related_pages. -/
def _insert_arva_related_pages (st : EnvTables) (page_id : Int)
    (resp : ArvaResponse) : EnvTables :=
  { st with related_pages := st.related_pages ++
      resp.relatedPages.map (fun p => ⟨p.id, page_id, p.title, p.locale⟩) }

/-- prog._insert_arva_service. -/
def _insert_arva_service (st : EnvTables) (page_id : Int)
    (resp : ArvaResponse) : EnvTables :=
  { st with services := st.services ++
      resp.services.map (fun s => ⟨s.id, page_id, s.name, s.url⟩) }

/-- prog.insert_arva_records: opens its own connection, upserts the main
row, replaces the related rows for the returned page id, commits once,
reports success, and closes cursor and connection in `finally` (the last
component records that release).  Store errors do not arise in the model
(no statement here can violate a constraint). -/
def insert_arva_records (now : Timestamp) (env : String) (st : EnvTables)
    (response_data : ArvaResponse) : EnvTables × List String × Bool :=
  let res := _insert_page_data now st.main response_data.page
  let page_id := res.2
  let st1 := { st with main := res.1 }
  let st2 := _delete_records st1 page_id
  let st3 := _insert_arva_institution st2 page_id response_data
  let st4 := _insert_arva_legal_act st3 page_id response_data
  let st5 := _insert_arva_page_contact st4 page_id response_data
  let st6 := _insert_arva_related_pages st5 page_id response_data
  let st7 := _insert_arva_service st6 page_id response_data
  (st7, ["Data saved successfully in the database for article ID " ++
    toString page_id ++ " in environment: " ++ env], true)

/-- What the remote returns for one article id of a pull
(prog.get_arva_records loop body):
* `transportError`: `requests.RequestException` was raised;
* `withErrors`: the JSON body has an `errors` array, each entry's
  optional `message` given (`error.get("message", "Unknown error")`);
* `okResp`: an error-free JSON body with its HTTP status code and the
  optional `data` member. -/
inductive PullResponse where
  | transportError (msg : String)
  | withErrors (errs : List (Option String))
  | okResp (status_code : Nat) (data : Option ArvaResponse)
deriving Repr, DecidableEq

/-- The loop body of prog.get_arva_records for one article id.  The
`errors` branch deduplicates the error messages through a Python `set`
(whose iteration order is arbitrary; the model keeps first occurrences)
and reports each once; the body writes nothing.  The success branch
requires HTTP 200 and a `data` member; `insert_arva_records` is invoked
with its default `print` callback, so only this loop's own messages reach
the pull callback. -/
def get_arva_records_step (now : Timestamp) (env : String) (st : EnvTables)
    (article_id : Int) (r : PullResponse) : EnvTables × List String :=
  match r with
  | .transportError msg =>
    (st, ["Error fetching data for article ID " ++ toString article_id ++ ": " ++ msg])
  | .withErrors errs =>
    let unique_errors := (errs.map (fun e => e.getD "Unknown error")).dedup
    (st, unique_errors.map (fun m =>
      "Error fetching data for article ID " ++ toString article_id ++ ": " ++ m))
  | .okResp status_code data =>
    match status_code, data with
    | 200, some response_data =>
      ((insert_arva_records now env st response_data).1,
        ["Records for article ID " ++ toString article_id ++ " have been inserted."])
    | code, _ =>
      (st, ["Failed to fetch data for article ID " ++ toString article_id ++
        ": " ++ toString code])

/-- The `for article_id in ...` loop of prog.get_arva_records: each
identifier is processed in order against the state left by its
predecessors, and the callback messages accumulate. -/
def get_arva_records_loop (now : Timestamp) (env : String) (st : EnvTables) :
    List (Int × PullResponse) → EnvTables × List String
  | [] => (st, [])
  | (article_id, r) :: rest =>
    let step := get_arva_records_step now env st article_id r
    let next := get_arva_records_loop now env step.1 rest
    (next.1, step.2 ++ next.2)

/-- Python whitespace strip (`id.strip()`), on the character list. -/
def pyStripChars (cs : List Char) : List Char :=
  ((cs.dropWhile Char.isWhitespace).reverse.dropWhile Char.isWhitespace).reverse

/-- Decimal digit run, `none` on empty input or any non-digit. -/
def pyDigits? : List Char → Option Nat
  | [] => none
  | cs =>
    if cs.all Char.isDigit then
      some (cs.foldl (fun acc c => acc * 10 + (c.toNat - 48)) 0)
    else none

/-- Python `int(...)` on a stripped string: an optional sign and a digit
run, `ValueError` (= `none`) otherwise.  (Python also accepts underscore
separators and non-ASCII digits; those inputs are not exercised here.) -/
def pyInt? : List Char → Option Int
  | [] => none
  | c :: rest =>
    if c = '-' then (pyDigits? rest).map (fun n => -(n : Int))
    else if c = '+' then (pyDigits? rest).map (fun n => (n : Int))
    else (pyDigits? (c :: rest)).map (fun n => (n : Int))

/-- Python `s.split(",")`: splitting the empty string yields `[""]`. -/
def splitOnComma : List Char → List (List Char)
  | [] => [[]]
  | c :: rest =>
    let r := splitOnComma rest
    if c = ',' then [] :: r
    else
      match r with
      | [] => [[c]]
      | h :: t => (c :: h) :: t

/-- The comprehension `[int(id.strip()) for id in article_ids.split(",")]`: `none` when any
entry fails integer parsing, in which case the comprehension raises
`ValueError`. -/
def parse_article_ids (s : String) : Option (List Int) :=
  let nums := (splitOnComma s.data).map (fun p => pyInt? (pyStripChars p))
  if nums.all (fun x => x.isSome) then some (nums.filterMap (fun x => x)) else none

/-- prog.get_arva_records: parses the comma-separated identifier list —
this comprehension runs before and outside the per-identifier `try`, so a
non-numeric entry raises `ValueError` past the operation boundary
(`Except.error`) — then runs the pull loop, which converts per-identifier
transport and application failures into callback messages. -/
def get_arva_records (now : Timestamp) (env : String) (st : EnvTables)
    (article_ids : String) (responses : Int → PullResponse) :
    Except String (EnvTables × List String) :=
  match parse_article_ids article_ids with
  | none => Except.error "ValueError: invalid literal for int() with base 10"
  | some ids =>
    Except.ok (get_arva_records_loop now env st
      (ids.map (fun i => (i, responses i))))

/-- db_act._copy_main_table's per-row projection: `INSERT INTO {target}
(article_id, locale, title, tags, path, content) SELECT ... FROM
{source}` — the uninserted `exp_article_id`, `status` and
`modified_timestamp` default to `NULL` in the target. -/
def copyEnvRow (r : EnvRow) : EnvRow :=
  { exp_article_id := none, article_id := r.article_id, locale := r.locale,
    title := r.title, tags := r.tags, path := r.path, content := r.content,
    status := none, modified_timestamp := none }

/-- db_act._copy_main_table: appends every source row's synchronizable
columns to the target.  `article_id` is the target's `INTEGER PRIMARY
KEY`, so the statement fails with a `UNIQUE` constraint error whenever an
inserted id collides with an existing or another inserted id; the failing
statement inserts nothing. -/
def _copy_main_table (source target : List EnvRow) : Except String (List EnvRow) :=
  if ((target.map (fun r => r.article_id)) ++
      (source.map (fun r => r.article_id))).Nodup then
    Except.ok (target ++ source.map copyEnvRow)
  else
    Except.error "UNIQUE constraint failed: article_id"

/-- What db_act._copy_related_tables actually copies for one page contact
row.  The dynamic column list is `PRAGMA table_info(source)[2:]`, which for
`arva_page_contact` (columns `id, contactId, pageId, role, ...`) skips
`id` and `contactId` and re-lists `pageId`; the built statement is `INSERT
INTO target (id, pageId, pageId, role, ...) SELECT id, pageId, pageId,
role, ... FROM source`, which SQLite accepts, leaving the never-mentioned
`contactId` as `NULL` in the target (both `pageId` slots receive the same
value). -/
def copyContactRow (c : PageContactRow) : PageContactRow :=
  { c with contactId := none }

/-- db_act._copy_related_tables: appends all rows of each of the five
source related tables to the target ones (there is no `WHERE` clause; the
related tables carry no constraints, so no statement here can fail).  For
the four tables whose leading columns are `id, pageId` every column is
copied; for `arva_page_contact` the `contactId` column is dropped (see
`copyContactRow`). -/
def _copy_related_tables (source target : EnvTables) : EnvTables :=
  { target with
    institutions := target.institutions ++ source.institutions,
    legal_acts := target.legal_acts ++ source.legal_acts,
    page_contacts := target.page_contacts ++ source.page_contacts.map copyContactRow,
    related_pages := target.related_pages ++ source.related_pages,
    services := target.services ++ source.services }

/-- db_act.copy_table: copies the main table, then the five related
tables, then commits; a store error is caught and reported, and the
uncommitted connection's changes are discarded.  The function has no
`finally` and never closes its cursor or connection on any path — the last
component records that (lack of) release. -/
def copy_table (source target : EnvTables) : EnvTables × List String × Bool :=
  match _copy_main_table source.main target.main with
  | .error err => (target, ["An error occurred: " ++ err], false)
  | .ok main2 =>
    let target2 := _copy_related_tables source { target with main := main2 }
    (target2, ["Data copied successfully."], false)

/-- Schema-level state of the project store: the created table names, the
created trigger names, and the `last_run` rows. -/
structure SchemaState where
  tables : List String
  triggers : List String
  last_run : List RunLogRow
deriving Repr, DecidableEq

/-- Semantics of `CREATE TABLE IF NOT EXISTS` / `CREATE TRIGGER IF NOT EXISTS`: adds
the name only when absent. -/
def createIfAbsent (names : List String) (name : String) : List String :=
  if name ∈ names then names else names ++ [name]

/-- Sequential `createIfAbsent` over a list of names. -/
def addAll (items : List String) (names : List String) : List String :=
  items.foldl createIfAbsent names

/-- The five related-table suffixes (db_act.create_related_tables). -/
def relatedSuffixes : List String :=
  ["arva_institution", "arva_legal_act", "arva_page_contact",
   "arva_related_pages", "arva_service"]

/-- db_act.create_main_env_table. -/
def create_main_env_table (s : SchemaState) (table_name : String) : SchemaState :=
  { s with tables := createIfAbsent s.tables table_name }

/-- db_act.create_update_trigger: `CREATE TRIGGER IF NOT EXISTS
update_modified_timestamp_{table}`. -/
def create_update_trigger (s : SchemaState) (table_name : String) : SchemaState :=
  let trigger_name := "update_modified_timestamp_" ++ table_name
  { s with triggers := createIfAbsent s.triggers trigger_name }

/-- db_act.create_related_tables: one `CREATE TABLE IF NOT EXISTS
{table}_{suffix}` per related kind. -/
def create_related_tables (s : SchemaState) (table_name : String) : SchemaState :=
  relatedSuffixes.foldl (fun acc sfx =>
    { acc with tables := createIfAbsent acc.tables (table_name ++ "_" ++ sfx) }) s

/-- db_act.create_env_tables: main table, trigger and related tables for
each of `_dev`, `_test`, `_prod`. -/
def create_env_tables (s : SchemaState) (table_name : String) : SchemaState :=
  ["_dev", "_test", "_prod"].foldl (fun acc env =>
    let env_table_name := table_name ++ env
    create_related_tables
      (create_update_trigger (create_main_env_table acc env_table_name)
        env_table_name)
      env_table_name) s

/-- db_act.create_base_tables: `CREATE TABLE IF NOT EXISTS last_run`
followed by an unconditional `INSERT INTO last_run (last_sync_timestamp,
status) VALUES (datetime('now'), 'initial')`; the autoincrement id is one
past the current row count in the model. -/
def create_base_tables (now : Timestamp) (s : SchemaState) : SchemaState :=
  let s1 := { s with tables := createIfAbsent s.tables "last_run" }
  { s1 with last_run := s1.last_run ++
      [⟨Int.ofNat s1.last_run.length + 1, some now, some "initial"⟩] }

/-- db_act.create_initial_table: the `{project}_initial` staging table. -/
def create_initial_table (s : SchemaState) (table_name : String) : SchemaState :=
  { s with tables := createIfAbsent s.tables (table_name ++ "_initial") }

/-- db_act.create_db: base tables, staging table, environment tables, one
commit, success callback, and cursor/connection release in `finally` (the
last component).  Every statement is create-if-absent except the `last_run`
insert, and none can fail on an open store, so the `except sqlite3.Error`
branch does not arise in the model. -/
def create_db (table_name : String) (now : Timestamp) (s : SchemaState) :
    SchemaState × List String × Bool :=
  let s1 := create_base_tables now s
  let s2 := create_initial_table s1 table_name
  let s3 := create_env_tables s2 table_name
  (s3, ["Database and tables created successfully in: " ++ table_name], true)

/-- The main and related table names of one environment, in creation
order. -/
def envSchemaNames (table_name env : String) : List String :=
  (table_name ++ env) ::
    relatedSuffixes.map (fun sfx => table_name ++ env ++ "_" ++ sfx)

/-- All table names created by create_db, in creation order. -/
def schemaTableNames (table_name : String) : List String :=
  ["last_run", table_name ++ "_initial"] ++
    envSchemaNames table_name "_dev" ++
    envSchemaNames table_name "_test" ++
    envSchemaNames table_name "_prod"

/-- All trigger names created by create_db, in creation order. -/
def schemaTriggerNames (table_name : String) : List String :=
  ["update_modified_timestamp_" ++ (table_name ++ "_dev"),
   "update_modified_timestamp_" ++ (table_name ++ "_test"),
   "update_modified_timestamp_" ++ (table_name ++ "_prod")]

/-- prog.process_records: scans the environment table once, pushes each
scanned row against the remote (whose per-row answer is the `outcome`
oracle), commits once after the loop, and closes cursor and connection in
`finally` on every path (the last component records that release). -/
def process_records (now : Timestamp) (runlog : List RunLogRow)
    (table : List EnvRow) (outcome : PushRow → MutationOutcome) :
    List EnvRow × List String × Bool :=
  let rows := (fetch_all_records runlog table).map toPushRow
  if rows.isEmpty then
    (table, ["No records to process."], true)
  else
    let stepped := rows.foldl (fun acc row =>
      let res := process_record now acc.1 row (outcome row)
      (res.1, acc.2 ++ res.2)) (table, ([] : List String))
    (stepped.1, stepped.2 ++ ["All records processed."], true)

/-- C1: a row of the environment table is selected by the push scan iff its
`modified_timestamp` is `NULL` or strictly newer than the most recent
RunLog timestamp; a row at or before the cutoff is never selected. -/
theorem fetch_all_records_selects_iff
    (runlog : List RunLogRow) (table : List EnvRow) (t : Timestamp)
    (h : get_last_run_info runlog = some t) (r : EnvRow) :
    r ∈ fetch_all_records runlog table ↔
      r ∈ table ∧ (r.modified_timestamp = none ∨
        ∃ ts, r.modified_timestamp = some ts ∧ t < ts) := by
  unfold fetch_all_records
  rw [List.mem_filter, h]
  constructor
  · rintro ⟨hmem, hsel⟩
    refine ⟨hmem, ?_⟩
    cases hmt : r.modified_timestamp with
    | none => exact Or.inl rfl
    | some ts =>
      right
      refine ⟨ts, rfl, ?_⟩
      rw [hmt] at hsel
      simpa [sql_gt] using hsel
  · rintro ⟨hmem, hsel⟩
    refine ⟨hmem, ?_⟩
    rcases hsel with hnone | ⟨ts, hts, hlt⟩
    · simp [hnone]
    · simp [hts, sql_gt, hlt]

/-- Witness for C1 at concrete inputs: cutoff 5; a `NULL` row and a newer
row are selected, an older row is not. -/
theorem fetch_all_records_selects_iff_witness :
    get_last_run_info [⟨1, some 5, some "initial"⟩] = some 5 ∧
      ((⟨none, 3, some "en", none, none, some "/c", none, none, some 7⟩ : EnvRow) ∈
        fetch_all_records [⟨1, some 5, some "initial"⟩]
          [⟨none, 1, some "en", none, none, some "/a", none, none, none⟩,
           ⟨none, 2, some "en", none, none, some "/b", none, none, some 3⟩,
           ⟨none, 3, some "en", none, none, some "/c", none, none, some 7⟩] ↔
        ((⟨none, 3, some "en", none, none, some "/c", none, none, some 7⟩ : EnvRow) ∈
          [⟨none, 1, some "en", none, none, some "/a", none, none, none⟩,
           ⟨none, 2, some "en", none, none, some "/b", none, none, some 3⟩,
           ⟨none, 3, some "en", none, none, some "/c", none, none, some 7⟩] ∧
          ((⟨none, 3, some "en", none, none, some "/c", none, none, some 7⟩ : EnvRow).modified_timestamp = none ∨
            ∃ ts, (⟨none, 3, some "en", none, none, some "/c", none, none, some 7⟩ : EnvRow).modified_timestamp = some ts ∧ 5 < ts))) :=
  ⟨by decide,
   fetch_all_records_selects_iff [⟨1, some 5, some "initial"⟩] _ 5 (by decide) _⟩

/-- Unfolding of update_record_status on truthy path and locale: the
status update maps over the table, then the trigger stamps every row
whose `article_id` was touched. -/
theorem update_record_status_ok (now : Timestamp) (page_id : Int)
    (path locale : Option String) (table : List EnvRow)
    (hp : pythonTruthy path = true) (hl : pythonTruthy locale = true) :
    update_record_status now page_id path locale table =
      Except.ok ((table.map (fun r =>
          if sql_eq_str r.path path && sql_eq_str r.locale locale then
            { r with exp_article_id := some page_id, status := some "succeeded" }
          else r)).map (fun r =>
        if r.article_id ∈ (table.filter (fun r =>
            sql_eq_str r.path path && sql_eq_str r.locale locale)).map
              (fun r => r.article_id) then
          { r with modified_timestamp := some now }
        else r)) := by
  simp [update_record_status, hp, hl]

/-- Every row matching the `(path, locale)` key is rewritten to the fully
updated row (new remote id, succeeded status, trigger timestamp). -/
theorem update_record_status_mem_updated (now : Timestamp) (page_id : Int)
    (path locale : Option String) (table : List EnvRow) (r : EnvRow)
    (hp : pythonTruthy path = true) (hl : pythonTruthy locale = true)
    (hr : r ∈ table)
    (hhit : (sql_eq_str r.path path && sql_eq_str r.locale locale) = true) :
    ∃ t', update_record_status now page_id path locale table = Except.ok t' ∧
      { r with exp_article_id := some page_id, status := some "succeeded",
               modified_timestamp := some now } ∈ t' := by
  refine ⟨_, update_record_status_ok now page_id path locale table hp hl, ?_⟩
  have h1 : ({ r with exp_article_id := some page_id, status := some "succeeded" } : EnvRow) ∈
      table.map (fun r =>
        if sql_eq_str r.path path && sql_eq_str r.locale locale then
          { r with exp_article_id := some page_id, status := some "succeeded" }
        else r) := by
    refine List.mem_map.mpr ⟨r, hr, ?_⟩
    simp [hhit]
  have h2 : ({ r with exp_article_id := some page_id, status := some "succeeded" } : EnvRow).article_id ∈
      (table.filter (fun r =>
        sql_eq_str r.path path && sql_eq_str r.locale locale)).map
          (fun r => r.article_id) :=
    List.mem_map.mpr ⟨r, List.mem_filter.mpr ⟨hr, hhit⟩, rfl⟩
  refine List.mem_map.mpr ⟨_, h1, ?_⟩
  simp [h2]

/-- Every row of the updated table that matches the `(path, locale)` key
carries the new remote id and the succeeded status. -/
theorem update_record_status_result_fields (now : Timestamp) (page_id : Int)
    (path locale : Option String) (table t' : List EnvRow)
    (hp : pythonTruthy path = true) (hl : pythonTruthy locale = true)
    (hok : update_record_status now page_id path locale table = Except.ok t')
    (r' : EnvRow) (hr' : r' ∈ t')
    (hhit : (sql_eq_str r'.path path && sql_eq_str r'.locale locale) = true) :
    r'.exp_article_id = some page_id ∧ r'.status = some "succeeded" := by
  rw [update_record_status_ok now page_id path locale table hp hl] at hok
  injection hok with hok
  subst hok
  rw [List.map_map] at hr'
  rcases List.mem_map.mp hr' with ⟨a, ha, ha2⟩
  subst ha2
  simp only [Function.comp] at hhit ⊢
  by_cases hhita : (sql_eq_str a.path path && sql_eq_str a.locale locale) = true
  · rw [if_pos hhita]
    split
    · exact ⟨rfl, rfl⟩
    · exact ⟨rfl, rfl⟩
  · exfalso
    rw [if_neg hhita] at hhit
    split at hhit
    · exact hhita hhit
    · exact hhita hhit

/-- Rows that do not match the `(path, locale)` key pass through the
status update and the trigger unchanged (assuming primary-key uniqueness of
`article_id`, which SQLite guarantees for the stored table). -/
theorem update_record_status_frame (now : Timestamp) (page_id : Int)
    (path locale : Option String) (table t' : List EnvRow)
    (hp : pythonTruthy path = true) (hl : pythonTruthy locale = true)
    (hnodup : (table.map (fun r => r.article_id)).Nodup)
    (hok : update_record_status now page_id path locale table = Except.ok t')
    (r : EnvRow) (hr : r ∈ table)
    (hmiss : (sql_eq_str r.path path && sql_eq_str r.locale locale) = false) :
    r ∈ t' := by
  rw [update_record_status_ok now page_id path locale table hp hl] at hok
  injection hok with hok
  subst hok
  have hnin : r.article_id ∉
      (table.filter (fun r =>
        sql_eq_str r.path path && sql_eq_str r.locale locale)).map
          (fun r => r.article_id) := by
    intro hmem
    rcases List.mem_map.mp hmem with ⟨b, hbf, hbid⟩
    have hb := List.mem_filter.mp hbf
    have hbr : b = r :=
      List.inj_on_of_nodup_map hnodup hb.1 hr hbid
    rw [hbr] at hb
    rw [hb.2] at hmiss
    simp at hmiss
  have h1 : r ∈ table.map (fun r =>
      if sql_eq_str r.path path && sql_eq_str r.locale locale then
        { r with exp_article_id := some page_id, status := some "succeeded" }
      else r) := by
    refine List.mem_map.mpr ⟨r, hr, ?_⟩
    simp [hmiss]
  refine List.mem_map.mpr ⟨r, h1, ?_⟩
  simp [hnin]

/-- Reduction of process_record on a create-mutation success: the table is
rewritten by update_record_status and the response message is reported. -/
theorem process_record_okCreate_reduce (now : Timestamp) (table : List EnvRow)
    (row : PushRow) (page_id : Int) (message tg : String)
    (htags : row.tags = some tg)
    (hp : pythonTruthy row.path = true) (hl : pythonTruthy row.locale = true) :
    ∃ t', update_record_status now page_id row.path row.locale table = Except.ok t' ∧
      process_record now table row (.okCreate page_id message) =
        (t', ["Record " ++ toString page_id ++ ": " ++ message]) := by
  refine ⟨_, update_record_status_ok now page_id row.path row.locale table hp hl, ?_⟩
  simp only [process_record, htags,
    update_record_status_ok now page_id row.path row.locale table hp hl]

/-- C2: after a successful push of an unsynced row (`exp_article_id` null,
create mutation returning id `page_id`), every row of the resulting table
that matches the pushed row's `(path, locale)` pair has `exp_article_id =
page_id` and `status = 'succeeded'`; rows with a different `(path, locale)`
pair pass through unchanged, whatever their `article_id`: the final local
update is addressed by `(path, locale)`, not by `article_id`. -/
theorem process_record_create_sets_remote_id
    (now : Timestamp) (table : List EnvRow) (row : PushRow)
    (page_id : Int) (message tg : String)
    (htags : row.tags = some tg)
    (hexp : row.exp_article_id = none)
    (hpath : pythonTruthy row.path = true)
    (hloc : pythonTruthy row.locale = true)
    (hnodup : (table.map (fun r => r.article_id)).Nodup) :
    (∀ r ∈ (process_record now table row (.okCreate page_id message)).1,
        (sql_eq_str r.path row.path && sql_eq_str r.locale row.locale) = true →
          r.exp_article_id = some page_id ∧ r.status = some "succeeded") ∧
    (∀ r ∈ table,
        (sql_eq_str r.path row.path && sql_eq_str r.locale row.locale) = false →
          r ∈ (process_record now table row (.okCreate page_id message)).1) := by
  obtain ⟨t', hok, hred⟩ :=
    process_record_okCreate_reduce now table row page_id message tg htags hpath hloc
  rw [hred]
  constructor
  · intro r hr hhit
    exact update_record_status_result_fields now page_id row.path row.locale
      table t' hpath hloc hok r hr hhit
  · intro r hr hmiss
    exact update_record_status_frame now page_id row.path row.locale
      table t' hpath hloc hnodup hok r hr hmiss

/-- Witness for C2 at concrete inputs: an unsynced row with path `/a`,
locale `en` is pushed; the create mutation returns id 99. -/
theorem process_record_create_sets_remote_id_witness :
    ((⟨1, none, some "en", some "t", some "x;y", some "/a", some "c"⟩ : PushRow).tags = some "x;y") ∧
    ((⟨1, none, some "en", some "t", some "x;y", some "/a", some "c"⟩ : PushRow).exp_article_id = none) ∧
    (pythonTruthy (⟨1, none, some "en", some "t", some "x;y", some "/a", some "c"⟩ : PushRow).path = true) ∧
    (pythonTruthy (⟨1, none, some "en", some "t", some "x;y", some "/a", some "c"⟩ : PushRow).locale = true) ∧
    (([⟨none, 1, some "en", some "t", some "x;y", some "/a", some "c", none, none⟩,
       ⟨none, 2, some "en", none, none, some "/b", none, none, some 3⟩] : List EnvRow).map
        (fun r => r.article_id)).Nodup ∧
    ((∀ r ∈ (process_record 10
          [⟨none, 1, some "en", some "t", some "x;y", some "/a", some "c", none, none⟩,
           ⟨none, 2, some "en", none, none, some "/b", none, none, some 3⟩]
          ⟨1, none, some "en", some "t", some "x;y", some "/a", some "c"⟩
          (.okCreate 99 "created")).1,
        (sql_eq_str r.path (⟨1, none, some "en", some "t", some "x;y", some "/a", some "c"⟩ : PushRow).path &&
          sql_eq_str r.locale (⟨1, none, some "en", some "t", some "x;y", some "/a", some "c"⟩ : PushRow).locale) = true →
          r.exp_article_id = some 99 ∧ r.status = some "succeeded") ∧
      (∀ r ∈ ([⟨none, 1, some "en", some "t", some "x;y", some "/a", some "c", none, none⟩,
           ⟨none, 2, some "en", none, none, some "/b", none, none, some 3⟩] : List EnvRow),
        (sql_eq_str r.path (⟨1, none, some "en", some "t", some "x;y", some "/a", some "c"⟩ : PushRow).path &&
          sql_eq_str r.locale (⟨1, none, some "en", some "t", some "x;y", some "/a", some "c"⟩ : PushRow).locale) = false →
          r ∈ (process_record 10
            [⟨none, 1, some "en", some "t", some "x;y", some "/a", some "c", none, none⟩,
             ⟨none, 2, some "en", none, none, some "/b", none, none, some 3⟩]
            ⟨1, none, some "en", some "t", some "x;y", some "/a", some "c"⟩
            (.okCreate 99 "created")).1)) :=
  ⟨rfl, rfl, by decide, by decide, by decide,
   process_record_create_sets_remote_id 10 _ _ 99 "created" "x;y" rfl rfl
     (by decide) (by decide) (by decide)⟩

/-- C10: the post-push local status update is keyed only by `(path,
locale)`: two distinct rows with different `article_id` but the same
`(path, locale)` pair are both rewritten to carry the returned remote id
and the succeeded status (plus the trigger timestamp). -/
theorem update_record_status_updates_all_matching
    (now : Timestamp) (page_id : Int) (path locale : Option String)
    (table : List EnvRow) (r1 r2 : EnvRow)
    (h1 : r1 ∈ table) (h2 : r2 ∈ table) (hne : r1 ≠ r2)
    (hid : r1.article_id ≠ r2.article_id)
    (hp : pythonTruthy path = true) (hl : pythonTruthy locale = true)
    (hhit1 : (sql_eq_str r1.path path && sql_eq_str r1.locale locale) = true)
    (hhit2 : (sql_eq_str r2.path path && sql_eq_str r2.locale locale) = true) :
    ∃ t', update_record_status now page_id path locale table = Except.ok t' ∧
      { r1 with exp_article_id := some page_id, status := some "succeeded",
                modified_timestamp := some now } ∈ t' ∧
      { r2 with exp_article_id := some page_id, status := some "succeeded",
                modified_timestamp := some now } ∈ t' := by
  obtain ⟨t', hok, hm1⟩ :=
    update_record_status_mem_updated now page_id path locale table r1 hp hl h1 hhit1
  obtain ⟨t2, hok2, hm2⟩ :=
    update_record_status_mem_updated now page_id path locale table r2 hp hl h2 hhit2
  rw [hok] at hok2
  injection hok2 with heq
  subst heq
  exact ⟨t', hok, hm1, hm2⟩

/-- Witness for C10 at concrete inputs: rows 1 and 2 share path `/a` and
locale `en`; pushing either one rewrites both. -/
theorem update_record_status_updates_all_matching_witness :
    ((⟨none, 1, some "en", some "t1", some "x", some "/a", some "c1", none, none⟩ : EnvRow) ∈
      ([⟨none, 1, some "en", some "t1", some "x", some "/a", some "c1", none, none⟩,
        ⟨none, 2, some "en", some "t2", some "y", some "/a", some "c2", some "s", some 4⟩] : List EnvRow)) ∧
    ((⟨none, 2, some "en", some "t2", some "y", some "/a", some "c2", some "s", some 4⟩ : EnvRow) ∈
      ([⟨none, 1, some "en", some "t1", some "x", some "/a", some "c1", none, none⟩,
        ⟨none, 2, some "en", some "t2", some "y", some "/a", some "c2", some "s", some 4⟩] : List EnvRow)) ∧
    ((⟨none, 1, some "en", some "t1", some "x", some "/a", some "c1", none, none⟩ : EnvRow) ≠
      (⟨none, 2, some "en", some "t2", some "y", some "/a", some "c2", some "s", some 4⟩ : EnvRow)) ∧
    ((⟨none, 1, some "en", some "t1", some "x", some "/a", some "c1", none, none⟩ : EnvRow).article_id ≠
      (⟨none, 2, some "en", some "t2", some "y", some "/a", some "c2", some "s", some 4⟩ : EnvRow).article_id) ∧
    (∃ t', update_record_status 10 99 (some "/a") (some "en")
        [⟨none, 1, some "en", some "t1", some "x", some "/a", some "c1", none, none⟩,
         ⟨none, 2, some "en", some "t2", some "y", some "/a", some "c2", some "s", some 4⟩] = Except.ok t' ∧
      { (⟨none, 1, some "en", some "t1", some "x", some "/a", some "c1", none, none⟩ : EnvRow) with
          exp_article_id := some 99, status := some "succeeded",
          modified_timestamp := some 10 } ∈ t' ∧
      { (⟨none, 2, some "en", some "t2", some "y", some "/a", some "c2", some "s", some 4⟩ : EnvRow) with
          exp_article_id := some 99, status := some "succeeded",
          modified_timestamp := some 10 } ∈ t') :=
  ⟨by decide, by decide, by decide, by decide,
   update_record_status_updates_all_matching 10 99 (some "/a") (some "en") _ _ _
     (by decide) (by decide) (by decide) (by decide) (by decide) (by decide)
     (by decide) (by decide)⟩

/-- C8: after a successful push, the engine's own UPDATE fires the AFTER
UPDATE trigger, so the pushed row's `modified_timestamp` becomes the push
time; as pushing appends no RunLog entry, a push time later than the RunLog
cutoff makes the row satisfy the candidate predicate on every subsequent
scan over the unchanged RunLog. -/
theorem pushed_row_stays_candidate
    (now t : Timestamp) (page_id : Int) (path locale : Option String)
    (runlog : List RunLogRow) (table : List EnvRow) (r : EnvRow)
    (hcut : get_last_run_info runlog = some t) (hlt : t < now)
    (hp : pythonTruthy path = true) (hl : pythonTruthy locale = true)
    (hr : r ∈ table)
    (hhit : (sql_eq_str r.path path && sql_eq_str r.locale locale) = true) :
    ∃ t', update_record_status now page_id path locale table = Except.ok t' ∧
      ({ r with exp_article_id := some page_id, status := some "succeeded",
                modified_timestamp := some now } : EnvRow).modified_timestamp = some now ∧
      { r with exp_article_id := some page_id, status := some "succeeded",
               modified_timestamp := some now } ∈ fetch_all_records runlog t' := by
  obtain ⟨t', hok, hm⟩ :=
    update_record_status_mem_updated now page_id path locale table r hp hl hr hhit
  refine ⟨t', hok, rfl, ?_⟩
  unfold fetch_all_records
  refine List.mem_filter.mpr ⟨hm, ?_⟩
  simp [hcut, sql_gt, hlt]

/-- Witness for C8 at concrete inputs: cutoff 5, push at time 10; the
pushed row is selected by the next scan. -/
theorem pushed_row_stays_candidate_witness :
    get_last_run_info [⟨1, some 5, some "initial"⟩] = some 5 ∧ 5 < 10 ∧
    pythonTruthy (some "/a") = true ∧ pythonTruthy (some "en") = true ∧
    ((⟨none, 1, some "en", some "t1", some "x", some "/a", some "c1", none, some 3⟩ : EnvRow) ∈
      ([⟨none, 1, some "en", some "t1", some "x", some "/a", some "c1", none, some 3⟩] : List EnvRow)) ∧
    (∃ t', update_record_status 10 99 (some "/a") (some "en")
        [⟨none, 1, some "en", some "t1", some "x", some "/a", some "c1", none, some 3⟩] = Except.ok t' ∧
      ({ (⟨none, 1, some "en", some "t1", some "x", some "/a", some "c1", none, some 3⟩ : EnvRow) with
          exp_article_id := some 99, status := some "succeeded",
          modified_timestamp := some 10 } : EnvRow).modified_timestamp = some 10 ∧
      { (⟨none, 1, some "en", some "t1", some "x", some "/a", some "c1", none, some 3⟩ : EnvRow) with
          exp_article_id := some 99, status := some "succeeded",
          modified_timestamp := some 10 } ∈ fetch_all_records [⟨1, some 5, some "initial"⟩] t') :=
  ⟨by decide, by decide, by decide, by decide, by decide,
   pushed_row_stays_candidate 10 5 99 (some "/a") (some "en") _ _ _
     (by decide) (by decide) (by decide) (by decide) (by decide) (by decide)⟩

/-- C4: for an identifier whose pull response carries an application-level
errors array, the loop body writes nothing (the whole environment state is
unchanged, so in particular no main or related row for that identifier),
reports exactly one callback message per distinct error text (the reported
list is the duplicate-free list of exactly the distinct texts), and the
pull loop continues with the remaining identifiers from the unchanged
state. -/
theorem pull_app_errors_skip_and_dedup
    (now : Timestamp) (env : String) (st : EnvTables) (article_id : Int)
    (errs : List (Option String)) (rest : List (Int × PullResponse)) :
    (get_arva_records_step now env st article_id (.withErrors errs)).1 = st ∧
    (get_arva_records_step now env st article_id (.withErrors errs)).2 =
      ((errs.map (fun e => e.getD "Unknown error")).dedup).map (fun m =>
        "Error fetching data for article ID " ++ toString article_id ++ ": " ++ m) ∧
    ((errs.map (fun e => e.getD "Unknown error")).dedup).Nodup ∧
    (∀ m, m ∈ (errs.map (fun e => e.getD "Unknown error")).dedup ↔
      m ∈ errs.map (fun e => e.getD "Unknown error")) ∧
    get_arva_records_loop now env st ((article_id, .withErrors errs) :: rest) =
      ((get_arva_records_loop now env st rest).1,
        ((errs.map (fun e => e.getD "Unknown error")).dedup).map (fun m =>
          "Error fetching data for article ID " ++ toString article_id ++ ": " ++ m) ++
        (get_arva_records_loop now env st rest).2) :=
  ⟨rfl, rfl, List.nodup_dedup _, fun _ => List.mem_dedup, rfl⟩

/-- C7 counterexample: invoking the pull with the identifier list `"abc"`
raises `ValueError` past the operation boundary instead of returning
normally with a sink message. -/
theorem pull_raises_on_nonnumeric_ids :
    get_arva_records 0 "dev" ⟨[], [], [], [], [], []⟩ "abc"
      (fun _ => PullResponse.withErrors []) =
    Except.error "ValueError: invalid literal for int() with base 10" := rfl

/-- C7 amended: the pull operation returns normally exactly when its
comma-separated identifier list parses as integers (per-identifier
transport and application failures inside the loop are then converted to
sink messages); a non-parsing identifier entry escapes as `ValueError`. -/
theorem pull_returns_normally_iff_ids_parse
    (now : Timestamp) (env : String) (st : EnvTables) (article_ids : String)
    (responses : Int → PullResponse) :
    (∃ ids, parse_article_ids article_ids = some ids) ↔
      ∃ v, get_arva_records now env st article_ids responses = Except.ok v := by
  constructor
  · rintro ⟨ids, h⟩
    refine ⟨get_arva_records_loop now env st (ids.map (fun i => (i, responses i))), ?_⟩
    unfold get_arva_records
    rw [h]
  · rintro ⟨v, h⟩
    unfold get_arva_records at h
    cases hp : parse_article_ids article_ids with
    | none => rw [hp] at h; cases h
    | some ids => exact ⟨ids, rfl⟩

/-- C9 counterexample: the Copy operation returns without closing its
connection or cursor (it has no `finally` and no close call), refuting
"every engine operation closes them before returning". -/
theorem copy_table_leaves_connection_open :
    (copy_table ⟨[], [], [], [], [], []⟩ ⟨[], [], [], [], [], []⟩).2.2 = false := rfl

/-- C9 amended: schema creation, the pull's insert step and the push driver
release their cursor/connection in `finally` on every path, but the Copy
operation never closes its connection or cursor. -/
theorem ops_close_connections_except_copy :
    (∀ (table_name : String) (now : Timestamp) (s : SchemaState),
      (create_db table_name now s).2.2 = true) ∧
    (∀ (now : Timestamp) (env : String) (st : EnvTables) (resp : ArvaResponse),
      (insert_arva_records now env st resp).2.2 = true) ∧
    (∀ (now : Timestamp) (runlog : List RunLogRow) (table : List EnvRow)
        (outcome : PushRow → MutationOutcome),
      (process_records now runlog table outcome).2.2 = true) ∧
    (∀ source target : EnvTables, (copy_table source target).2.2 = false) := by
  refine ⟨fun _ _ _ => rfl, fun _ _ _ _ => rfl, ?_, ?_⟩
  · intro now runlog table outcome
    by_cases hrows : ((fetch_all_records runlog table).map toPushRow).isEmpty = true
    · simp [process_records, hrows]
    · simp [process_records, hrows]
  · intro source target
    rcases hm : _copy_main_table source.main target.main with err | main2 <;>
      simp [copy_table, hm]

/-- Adding a present name is the identity. -/
theorem createIfAbsent_of_mem (names : List String) (n : String)
    (h : n ∈ names) : createIfAbsent names n = names := by
  unfold createIfAbsent
  exact if_pos h

/-- The added name is present afterwards. -/
theorem mem_createIfAbsent_self (names : List String) (n : String) :
    n ∈ createIfAbsent names n := by
  unfold createIfAbsent
  split
  · assumption
  · exact List.mem_append_right _ (List.mem_singleton.mpr rfl)

/-- createIfAbsent only adds names. -/
theorem mem_createIfAbsent_of_mem (names : List String) (n x : String)
    (h : x ∈ names) : x ∈ createIfAbsent names n := by
  unfold createIfAbsent
  split
  · exact h
  · exact List.mem_append_left _ h

/-- addAll only adds names. -/
theorem mem_addAll_of_mem (items names : List String) (x : String)
    (hx : x ∈ names) : x ∈ addAll items names := by
  induction items generalizing names with
  | nil => exact hx
  | cons a items ih =>
    exact ih (createIfAbsent names a) (mem_createIfAbsent_of_mem names a x hx)

/-- Every listed name is present after addAll. -/
theorem mem_addAll_of_mem_items (items names : List String) (x : String)
    (hx : x ∈ items) : x ∈ addAll items names := by
  induction items generalizing names with
  | nil => cases hx
  | cons a items ih =>
    rcases List.mem_cons.mp hx with h | h
    · subst h
      exact mem_addAll_of_mem items (createIfAbsent names x) x
        (mem_createIfAbsent_self names x)
    · exact ih (createIfAbsent names a) h

/-- addAll is the identity when every listed name is already present. -/
theorem addAll_eq_of_subset (items names : List String)
    (h : ∀ x ∈ items, x ∈ names) : addAll items names = names := by
  induction items with
  | nil => rfl
  | cons a items ih =>
    show addAll items (createIfAbsent names a) = names
    rw [createIfAbsent_of_mem names a (h a (List.mem_cons_self a items))]
    exact ih (fun x hx => h x (List.mem_cons_of_mem a hx))

/-- Running addAll a second time changes nothing. -/
theorem addAll_idem (items names : List String) :
    addAll items (addAll items names) = addAll items names :=
  addAll_eq_of_subset items _ (fun x hx => mem_addAll_of_mem_items items names x hx)

/-- The table names created by create_db, as a sequential create-if-absent
pass over the fixed name list. -/
theorem create_db_tables_eq (table_name : String) (now : Timestamp)
    (s : SchemaState) :
    ((create_db table_name now s).1).tables =
      addAll (schemaTableNames table_name) s.tables := by
  simp only [create_db, create_base_tables, create_initial_table,
    create_env_tables, create_related_tables, create_main_env_table,
    create_update_trigger, addAll, schemaTableNames, envSchemaNames,
    relatedSuffixes, List.foldl_cons, List.foldl_nil, List.map_cons,
    List.map_nil, List.cons_append, List.nil_append, List.append_assoc]

/-- The trigger names created by create_db, as a sequential
create-if-absent pass over the fixed name list. -/
theorem create_db_triggers_eq (table_name : String) (now : Timestamp)
    (s : SchemaState) :
    ((create_db table_name now s).1).triggers =
      addAll (schemaTriggerNames table_name) s.triggers := by
  simp only [create_db, create_base_tables, create_initial_table,
    create_env_tables, create_related_tables, create_main_env_table,
    create_update_trigger, addAll, schemaTriggerNames, relatedSuffixes,
    List.foldl_cons, List.foldl_nil]

/-- create_db appends exactly one `initial` RunLog row. -/
theorem create_db_last_run_eq (table_name : String) (now : Timestamp)
    (s : SchemaState) :
    ((create_db table_name now s).1).last_run =
      s.last_run ++ [⟨Int.ofNat s.last_run.length + 1, some now, some "initial"⟩] := rfl

/-- C6: schema creation is idempotent — a second create_db against the
same store adds no table and no trigger (so no duplicates), reports only
the success message (no error), and, as on every invocation, inserts
exactly one RunLog row with status `initial` stamped at its own creation
time. -/
theorem create_db_idempotent (table_name : String) (t1 t2 : Timestamp)
    (s : SchemaState) :
    ((create_db table_name t2 (create_db table_name t1 s).1).1).tables =
      ((create_db table_name t1 s).1).tables ∧
    ((create_db table_name t2 (create_db table_name t1 s).1).1).triggers =
      ((create_db table_name t1 s).1).triggers ∧
    (create_db table_name t2 (create_db table_name t1 s).1).2.1 =
      ["Database and tables created successfully in: " ++ table_name] ∧
    (∃ i, ((create_db table_name t2 (create_db table_name t1 s).1).1).last_run =
      ((create_db table_name t1 s).1).last_run ++ [⟨i, some t2, some "initial"⟩]) := by
  refine ⟨?_, ?_, rfl, ?_⟩
  · rw [create_db_tables_eq, create_db_tables_eq, addAll_idem]
  · rw [create_db_triggers_eq, create_db_triggers_eq, addAll_idem]
  · exact ⟨_, create_db_last_run_eq table_name t2 (create_db table_name t1 s).1⟩

/-- C5 counterexample: copying an environment with one page-contact row
into an empty environment does not append that related row as it is — the
dynamic column list of the copy skips `contactId`, which arrives `NULL` in
the target. -/
theorem copy_table_does_not_preserve_contact_rows :
    (copy_table
      ⟨[], [], [], [⟨1, some 10, 100, some "r", none, none, none, none, none, none⟩], [], []⟩
      ⟨[], [], [], [], [], []⟩).1.page_contacts ≠
    ([] : List PageContactRow) ++
      [⟨1, some 10, 100, some "r", none, none, none, none, none, none⟩] := by
  decide

/-- C5 amended: for a conflict-free (source, target) pair, Copy appends
one row per source main row preserving `article_id, locale, title, tags,
path, content` and leaving `exp_article_id`, `status` and
`modified_timestamp` null; it appends every related row for institutions,
legal acts, related pages and services with all columns preserved, and
every page-contact row with all columns preserved except `contactId`,
which is left null. -/
theorem copy_table_appends_rows (source target : EnvTables)
    (hkeys : ((target.main.map (fun r => r.article_id)) ++
      (source.main.map (fun r => r.article_id))).Nodup) :
    (copy_table source target).1.main = target.main ++ source.main.map copyEnvRow ∧
    (copy_table source target).1.main.length =
      target.main.length + source.main.length ∧
    (∀ r ∈ source.main,
      (copyEnvRow r).article_id = r.article_id ∧
      (copyEnvRow r).locale = r.locale ∧
      (copyEnvRow r).title = r.title ∧
      (copyEnvRow r).tags = r.tags ∧
      (copyEnvRow r).path = r.path ∧
      (copyEnvRow r).content = r.content ∧
      (copyEnvRow r).exp_article_id = none ∧
      (copyEnvRow r).status = none ∧
      (copyEnvRow r).modified_timestamp = none) ∧
    (copy_table source target).1.institutions =
      target.institutions ++ source.institutions ∧
    (copy_table source target).1.legal_acts =
      target.legal_acts ++ source.legal_acts ∧
    (copy_table source target).1.related_pages =
      target.related_pages ++ source.related_pages ∧
    (copy_table source target).1.services =
      target.services ++ source.services ∧
    (copy_table source target).1.page_contacts =
      target.page_contacts ++ source.page_contacts.map copyContactRow ∧
    (copy_table source target).2.1 = ["Data copied successfully."] := by
  have hmain : _copy_main_table source.main target.main =
      Except.ok (target.main ++ source.main.map copyEnvRow) := by
    unfold _copy_main_table
    exact if_pos hkeys
  refine ⟨?_, ?_, ?_, ?_, ?_, ?_, ?_, ?_, ?_⟩ <;>
    simp [copy_table, hmain, _copy_related_tables, copyEnvRow]

/-- Witness for C5 at concrete inputs: a source with one main row, one
institution and one service is copied into a target with one main row. -/
theorem copy_table_appends_rows_witness :
    ((([⟨some 9, 5, some "en", some "t5", some "x", some "/t", some "ct", some "s", some 4⟩] : List EnvRow).map
        (fun r => r.article_id)) ++
      (([⟨none, 1, some "en", some "t1", some "a;b", some "/a", some "c1", none, none⟩] : List EnvRow).map
        (fun r => r.article_id))).Nodup ∧
    (copy_table
      ⟨[⟨none, 1, some "en", some "t1", some "a;b", some "/a", some "c1", none, none⟩],
       [⟨7, 1, some "inst", some "u", true⟩], [], [], [],
       [⟨8, 1, some "svc", some "su"⟩]⟩
      ⟨[⟨some 9, 5, some "en", some "t5", some "x", some "/t", some "ct", some "s", some 4⟩],
       [], [], [], [], []⟩).1.main =
      [⟨some 9, 5, some "en", some "t5", some "x", some "/t", some "ct", some "s", some 4⟩] ++
        ([⟨none, 1, some "en", some "t1", some "a;b", some "/a", some "c1", none, none⟩] : List EnvRow).map copyEnvRow ∧
    (copy_table
      ⟨[⟨none, 1, some "en", some "t1", some "a;b", some "/a", some "c1", none, none⟩],
       [⟨7, 1, some "inst", some "u", true⟩], [], [], [],
       [⟨8, 1, some "svc", some "su"⟩]⟩
      ⟨[⟨some 9, 5, some "en", some "t5", some "x", some "/t", some "ct", some "s", some 4⟩],
       [], [], [], [], []⟩).1.institutions = [⟨7, 1, some "inst", some "u", true⟩] ∧
    (copy_table
      ⟨[⟨none, 1, some "en", some "t1", some "a;b", some "/a", some "c1", none, none⟩],
       [⟨7, 1, some "inst", some "u", true⟩], [], [], [],
       [⟨8, 1, some "svc", some "su"⟩]⟩
      ⟨[⟨some 9, 5, some "en", some "t5", some "x", some "/t", some "ct", some "s", some 4⟩],
       [], [], [], [], []⟩).1.services = [⟨8, 1, some "svc", some "su"⟩] := by
  refine ⟨by decide, ?_, ?_, ?_⟩
  · exact (copy_table_appends_rows _ _ (by decide)).1
  · have h := (copy_table_appends_rows
      ⟨[⟨none, 1, some "en", some "t1", some "a;b", some "/a", some "c1", none, none⟩],
       [⟨7, 1, some "inst", some "u", true⟩], [], [], [],
       [⟨8, 1, some "svc", some "su"⟩]⟩
      ⟨[⟨some 9, 5, some "en", some "t5", some "x", some "/t", some "ct", some "s", some 4⟩],
       [], [], [], [], []⟩ (by decide)).2.2.2.1
    simpa using h
  · have h := (copy_table_appends_rows
      ⟨[⟨none, 1, some "en", some "t1", some "a;b", some "/a", some "c1", none, none⟩],
       [⟨7, 1, some "inst", some "u", true⟩], [], [], [],
       [⟨8, 1, some "svc", some "su"⟩]⟩
      ⟨[⟨some 9, 5, some "en", some "t5", some "x", some "/t", some "ct", some "s", some 4⟩],
       [], [], [], [], []⟩ (by decide)).2.2.2.2.2.2.1
    simpa using h

/-- The pull insert touches the main table only through the page upsert. -/
theorem insert_arva_main_eq (now : Timestamp) (env : String) (st : EnvTables)
    (resp : ArvaResponse) :
    (insert_arva_records now env st resp).1.main =
      (_insert_page_data now st.main resp.page).1 := rfl

/-- Institutions after a pull insert: surviving foreign rows plus the
freshly fetched ones. -/
theorem insert_arva_institutions_eq (now : Timestamp) (env : String)
    (st : EnvTables) (resp : ArvaResponse) :
    (insert_arva_records now env st resp).1.institutions =
      (st.institutions.filter (fun r => r.pageId ≠ resp.page.id)) ++
        resp.institutions.map (fun i =>
          ⟨i.id, resp.page.id, i.name, i.url, i.isResponsible⟩) := rfl

/-- Legal acts after a pull insert. -/
theorem insert_arva_legal_acts_eq (now : Timestamp) (env : String)
    (st : EnvTables) (resp : ArvaResponse) :
    (insert_arva_records now env st resp).1.legal_acts =
      (st.legal_acts.filter (fun r => r.pageId ≠ resp.page.id)) ++
        resp.legalActs.map (fun l => ⟨l.id, resp.page.id, l.title, l.url,
          l.legalActType, l.globalId, l.groupId, l.versionStartDate⟩) := rfl

/-- Page contacts after a pull insert. -/
theorem insert_arva_page_contacts_eq (now : Timestamp) (env : String)
    (st : EnvTables) (resp : ArvaResponse) :
    (insert_arva_records now env st resp).1.page_contacts =
      (st.page_contacts.filter (fun r => r.pageId ≠ resp.page.id)) ++
        resp.contacts.map (fun c => ⟨c.id, c.contactId, resp.page.id, c.role,
          c.firstName, c.lastName, c.company, c.email, c.countryCode,
          c.nationalNumber⟩) := rfl

/-- Related pages after a pull insert. -/
theorem insert_arva_related_pages_eq (now : Timestamp) (env : String)
    (st : EnvTables) (resp : ArvaResponse) :
    (insert_arva_records now env st resp).1.related_pages =
      (st.related_pages.filter (fun r => r.pageId ≠ resp.page.id)) ++
        resp.relatedPages.map (fun p => ⟨p.id, resp.page.id, p.title, p.locale⟩) := rfl

/-- Services after a pull insert. -/
theorem insert_arva_services_eq (now : Timestamp) (env : String)
    (st : EnvTables) (resp : ArvaResponse) :
    (insert_arva_records now env st resp).1.services =
      (st.services.filter (fun r => r.pageId ≠ resp.page.id)) ++
        resp.services.map (fun s => ⟨s.id, resp.page.id, s.name, s.url⟩) := rfl

/-- After the page upsert the main table always holds a row for the pulled
id. -/
theorem insert_page_any (now : Timestamp) (main : List EnvRow) (p : PageData) :
    ((_insert_page_data now main p).1).any (fun r => r.article_id == p.id) = true := by
  simp only [_insert_page_data]
  by_cases h : main.any (fun r => r.article_id == p.id) = true
  · rw [if_pos h]
    rcases List.any_eq_true.mp h with ⟨a, ha, hfa⟩
    refine List.any_eq_true.mpr ⟨_, List.mem_map_of_mem _ ha, ?_⟩
    by_cases hida : a.article_id = p.id
    · rw [if_pos hida]
      exact hfa
    · rw [if_neg hida]
      exact hfa
  · rw [if_neg h]
    refine List.any_eq_true.mpr ⟨_, List.mem_append_right _ (List.mem_singleton.mpr rfl), ?_⟩
    simp

/-- Any row carrying the pulled id after the page upsert holds exactly the
response's synchronizable column values. -/
theorem insert_page_fields (now : Timestamp) (main : List EnvRow) (p : PageData)
    (r : EnvRow) (hr : r ∈ (_insert_page_data now main p).1)
    (hid : r.article_id = p.id) :
    r.locale = p.locale ∧ r.title = p.title ∧
      r.tags = some (joinTags p.tags) ∧ r.path = p.path ∧
      r.content = p.content := by
  simp only [_insert_page_data] at hr
  by_cases h : main.any (fun r => r.article_id == p.id) = true
  · rw [if_pos h] at hr
    rcases List.mem_map.mp hr with ⟨a, _, rfl⟩
    by_cases hida : a.article_id = p.id
    · rw [if_pos hida]
      exact ⟨rfl, rfl, rfl, rfl, rfl⟩
    · rw [if_neg hida] at hid
      exact absurd hid hida
  · rw [if_neg h] at hr
    rcases List.mem_append.mp hr with hmem | hmem
    · exfalso
      apply h
      refine List.any_eq_true.mpr ⟨r, hmem, ?_⟩
      simp [hid]
    · rw [List.mem_singleton.mp hmem]
      exact ⟨rfl, rfl, rfl, rfl, rfl⟩

/-- Refiltering an already filtered list and re-appending rows the filter
rejects reproduces the input: the delete-then-reinsert shape of the pull is
stable under repetition. -/
theorem filter_append_stable {α : Type} (p : α → Bool) (old news : List α)
    (hnew : ∀ x ∈ news, p x = false) :
    ((old.filter p ++ news).filter p) ++ news = old.filter p ++ news := by
  have h1 : (old.filter p).filter p = old.filter p :=
    List.filter_eq_self.mpr (fun a ha => (List.mem_filter.mp ha).2)
  have h2 : news.filter p = [] :=
    List.filter_eq_nil_iff.mpr (fun a ha hpa => by rw [hnew a ha] at hpa; cases hpa)
  rw [List.filter_append, h1, h2, List.append_nil]

/-- C3 counterexample: pulling article 1 twice into an empty environment
with identical response data does not leave the same EnvironmentRecord
row — the second pull's upsert takes the conflict branch, whose `DO
UPDATE` fires the AFTER UPDATE trigger and stamps `modified_timestamp`
(null after one pull, the second pull's time after two). -/
theorem insert_arva_records_not_idempotent :
    ((insert_arva_records 2 "dev"
        (insert_arva_records 1 "dev" ⟨[], [], [], [], [], []⟩
          ⟨⟨1, some "en", some "t", [some "a"], some "/p", some "c"⟩,
           [⟨7, some "inst", some "u", true⟩], [], [], [], []⟩).1
        ⟨⟨1, some "en", some "t", [some "a"], some "/p", some "c"⟩,
         [⟨7, some "inst", some "u", true⟩], [], [], [], []⟩).1).main ≠
    ((insert_arva_records 1 "dev" ⟨[], [], [], [], [], []⟩
        ⟨⟨1, some "en", some "t", [some "a"], some "/p", some "c"⟩,
         [⟨7, some "inst", some "u", true⟩], [], [], [], []⟩).1).main := by
  decide

/-- C3 amended: pulling the same id twice with identical response data
yields exactly one main row for that id whose columns all equal the
once-pulled row's except `modified_timestamp`, which the second pull's
conflict-update sets (through the AFTER UPDATE trigger) to the second
pull's time; the five related-row sets are exactly those of the first
pull, with no duplicates, because the related rows are deleted before
reinsertion. -/
theorem insert_arva_records_twice (now1 now2 : Timestamp) (env : String)
    (st : EnvTables) (resp : ArvaResponse)
    (hcount : (st.main.filter (fun r => r.article_id == resp.page.id)).length ≤ 1) :
    ((insert_arva_records now2 env (insert_arva_records now1 env st resp).1 resp).1).main =
      ((insert_arva_records now1 env st resp).1).main.map (fun r =>
        if r.article_id = resp.page.id then
          { r with modified_timestamp := some now2 }
        else r) ∧
    (((insert_arva_records now2 env (insert_arva_records now1 env st resp).1 resp).1).main.filter
        (fun r => r.article_id == resp.page.id)).length = 1 ∧
    ((insert_arva_records now2 env (insert_arva_records now1 env st resp).1 resp).1).institutions =
      ((insert_arva_records now1 env st resp).1).institutions ∧
    ((insert_arva_records now2 env (insert_arva_records now1 env st resp).1 resp).1).legal_acts =
      ((insert_arva_records now1 env st resp).1).legal_acts ∧
    ((insert_arva_records now2 env (insert_arva_records now1 env st resp).1 resp).1).page_contacts =
      ((insert_arva_records now1 env st resp).1).page_contacts ∧
    ((insert_arva_records now2 env (insert_arva_records now1 env st resp).1 resp).1).related_pages =
      ((insert_arva_records now1 env st resp).1).related_pages ∧
    ((insert_arva_records now2 env (insert_arva_records now1 env st resp).1 resp).1).services =
      ((insert_arva_records now1 env st resp).1).services := by
  have hany : ((insert_arva_records now1 env st resp).1).main.any
      (fun r => r.article_id == resp.page.id) = true := by
    rw [insert_arva_main_eq]
    exact insert_page_any now1 st.main resp.page
  have hmain2 :
      ((insert_arva_records now2 env (insert_arva_records now1 env st resp).1 resp).1).main =
        ((insert_arva_records now1 env st resp).1).main.map (fun r =>
          if r.article_id = resp.page.id then
            { r with modified_timestamp := some now2 }
          else r) := by
    rw [insert_arva_main_eq]
    simp only [_insert_page_data]
    rw [if_pos hany]
    apply List.map_congr_left
    intro r hr
    by_cases hid : r.article_id = resp.page.id
    · rw [if_pos hid, if_pos hid]
      obtain ⟨hl, ht, htg, hp, hc⟩ := insert_page_fields now1 st.main resp.page r
        (by rw [insert_arva_main_eq] at hr; exact hr) hid
      cases r
      dsimp only at hl ht htg hp hc
      subst hl
      subst ht
      subst htg
      subst hp
      subst hc
      rfl
    · rw [if_neg hid, if_neg hid]
  have hcount2 :
      (((insert_arva_records now2 env (insert_arva_records now1 env st resp).1 resp).1).main.filter
        (fun r => r.article_id == resp.page.id)).length = 1 := by
    rw [← List.countP_eq_length_filter, hmain2, List.countP_map]
    have hpt : ∀ r ∈ ((insert_arva_records now1 env st resp).1).main,
        ((fun x => x.article_id == resp.page.id) ∘ (fun r =>
          if r.article_id = resp.page.id then
            { r with modified_timestamp := some now2 }
          else r)) r ↔ (r.article_id == resp.page.id) = true := by
      intro r _
      by_cases hid : r.article_id = resp.page.id
      · simp [Function.comp, hid]
      · simp [Function.comp, hid]
    rw [List.countP_congr hpt, insert_arva_main_eq]
    simp only [_insert_page_data]
    by_cases h : st.main.any (fun r => r.article_id == resp.page.id) = true
    · rw [if_pos h, List.countP_map]
      have hpt1 : ∀ r ∈ st.main,
          ((fun x => x.article_id == resp.page.id) ∘ (fun r =>
            if r.article_id = resp.page.id then
              { r with locale := resp.page.locale, title := resp.page.title,
                       tags := some (joinTags resp.page.tags), path := resp.page.path,
                       content := resp.page.content,
                       modified_timestamp := some now1 }
            else r)) r ↔ (r.article_id == resp.page.id) = true := by
        intro r _
        by_cases hid : r.article_id = resp.page.id
        · simp [Function.comp, hid]
        · simp [Function.comp, hid]
      rw [List.countP_congr hpt1]
      have hle : st.main.countP (fun r => r.article_id == resp.page.id) ≤ 1 := by
        rw [List.countP_eq_length_filter]
        exact hcount
      have hpos : 0 < st.main.countP (fun r => r.article_id == resp.page.id) := by
        rcases List.any_eq_true.mp h with ⟨a, ha, hfa⟩
        exact List.countP_pos_iff.mpr ⟨a, ha, hfa⟩
      omega
    · rw [if_neg h, List.countP_append]
      have h0 : st.main.countP (fun r => r.article_id == resp.page.id) = 0 := by
        refine List.countP_eq_zero.mpr ?_
        intro a ha hfa
        exact h (List.any_eq_true.mpr ⟨a, ha, hfa⟩)
      rw [h0]
      simp
  refine ⟨hmain2, hcount2, ?_, ?_, ?_, ?_, ?_⟩
  · rw [insert_arva_institutions_eq, insert_arva_institutions_eq now1]
    apply filter_append_stable
    intro x hx
    rcases List.mem_map.mp hx with ⟨i, _, rfl⟩
    simp
  · rw [insert_arva_legal_acts_eq, insert_arva_legal_acts_eq now1]
    apply filter_append_stable
    intro x hx
    rcases List.mem_map.mp hx with ⟨i, _, rfl⟩
    simp
  · rw [insert_arva_page_contacts_eq, insert_arva_page_contacts_eq now1]
    apply filter_append_stable
    intro x hx
    rcases List.mem_map.mp hx with ⟨i, _, rfl⟩
    simp
  · rw [insert_arva_related_pages_eq, insert_arva_related_pages_eq now1]
    apply filter_append_stable
    intro x hx
    rcases List.mem_map.mp hx with ⟨i, _, rfl⟩
    simp
  · rw [insert_arva_services_eq, insert_arva_services_eq now1]
    apply filter_append_stable
    intro x hx
    rcases List.mem_map.mp hx with ⟨i, _, rfl⟩
    simp

/-- Witness for the amended C3 at concrete inputs: pulling article 1 twice
into an empty environment at times 1 and 2. -/
theorem insert_arva_records_twice_witness :
    ((([] : List EnvRow).filter (fun r => r.article_id == (1 : Int))).length ≤ 1) ∧
    ((insert_arva_records 2 "dev"
        (insert_arva_records 1 "dev" ⟨[], [], [], [], [], []⟩
          ⟨⟨1, some "en", some "t", [some "a"], some "/p", some "c"⟩,
           [⟨7, some "inst", some "u", true⟩], [], [], [], []⟩).1
        ⟨⟨1, some "en", some "t", [some "a"], some "/p", some "c"⟩,
         [⟨7, some "inst", some "u", true⟩], [], [], [], []⟩).1).main =
      ((insert_arva_records 1 "dev" ⟨[], [], [], [], [], []⟩
          ⟨⟨1, some "en", some "t", [some "a"], some "/p", some "c"⟩,
           [⟨7, some "inst", some "u", true⟩], [], [], [], []⟩).1).main.map (fun r =>
        if r.article_id = (1 : Int) then
          { r with modified_timestamp := some 2 }
        else r) ∧
    (((insert_arva_records 2 "dev"
        (insert_arva_records 1 "dev" ⟨[], [], [], [], [], []⟩
          ⟨⟨1, some "en", some "t", [some "a"], some "/p", some "c"⟩,
           [⟨7, some "inst", some "u", true⟩], [], [], [], []⟩).1
        ⟨⟨1, some "en", some "t", [some "a"], some "/p", some "c"⟩,
         [⟨7, some "inst", some "u", true⟩], [], [], [], []⟩).1).main.filter
        (fun r => r.article_id == (1 : Int))).length = 1 ∧
    ((insert_arva_records 2 "dev"
        (insert_arva_records 1 "dev" ⟨[], [], [], [], [], []⟩
          ⟨⟨1, some "en", some "t", [some "a"], some "/p", some "c"⟩,
           [⟨7, some "inst", some "u", true⟩], [], [], [], []⟩).1
        ⟨⟨1, some "en", some "t", [some "a"], some "/p", some "c"⟩,
         [⟨7, some "inst", some "u", true⟩], [], [], [], []⟩).1).institutions =
      ((insert_arva_records 1 "dev" ⟨[], [], [], [], [], []⟩
          ⟨⟨1, some "en", some "t", [some "a"], some "/p", some "c"⟩,
           [⟨7, some "inst", some "u", true⟩], [], [], [], []⟩).1).institutions := by
  have h := insert_arva_records_twice 1 2 "dev" ⟨[], [], [], [], [], []⟩
    ⟨⟨1, some "en", some "t", [some "a"], some "/p", some "c"⟩,
     [⟨7, some "inst", some "u", true⟩], [], [], [], []⟩ (by decide)
  exact ⟨by decide, h.1, h.2.1, h.2.2.1⟩
